import Mathlib

/-!
Verification development for the PlaybookNews backend (Express + MongoDB).
The definitions below are a shallow embedding of the JavaScript source:
the auth guards and login live in server/auth.js, account creation in
setReqs/createUser.js, and the route handlers in the server entry file.
JavaScript runtime values are modelled by an inductive of JSON-like
values, bcrypt by an injective tagging function, and jsonwebtoken by a
token structure whose signature field is a function of the secret and
the payload.  Machine-level details that no embedded operation inspects
(actual bcrypt salts, actual HMAC bytes) are abstracted, but the control
flow, type tests and string normalizations follow the source line by
line.
-/

namespace PlaybookNews

/-- JS-like runtime value, covering the shapes the routes inspect.
Arrays are omitted: no route in the source distinguishes them from
plain objects.  An object is a list of field/value pairs. -/
inductive JsValue where
  | undefined
  | null
  | bool (b : Bool)
  | num (n : Int)
  | str (s : String)
  | obj (fields : List (String × JsValue))
deriving Repr

/-- JS typeof operator on the embedded values: typeof null is "object",
as in JavaScript. -/
def jsTypeof : JsValue → String
  | .undefined => "undefined"
  | .null => "object"
  | .bool _ => "boolean"
  | .num _ => "number"
  | .str _ => "string"
  | .obj _ => "object"

/-- JS truthiness of the embedded values: undefined, null, false, 0 and
the empty string are falsy; every object is truthy. -/
def jsTruthy : JsValue → Bool
  | .undefined => false
  | .null => false
  | .bool b => b
  | .num n => n != 0
  | .str s => s != ""
  | .obj _ => true

/-- JS String.prototype.toLowerCase modelled over the character list;
only ASCII-relevant lowering matters to the embedded strings. -/
def jsToLower (s : String) : String := ⟨s.data.map Char.toLower⟩

/-- Whitespace test used by the trim model. -/
def wsChar (c : Char) : Bool := c.isWhitespace

/-- JS String.prototype.trim modelled over the character list: strip
leading and trailing whitespace. -/
def jsTrim (s : String) : String :=
  ⟨((s.data.dropWhile wsChar).reverse.dropWhile wsChar).reverse⟩

/-- String contents of a value; only read on branches where the source
has already established the value is a string. -/
def jsStr : JsValue → String
  | .str s => s
  | _ => ""

/-- JS string .length, read only after a typeof check in the source. -/
def jsStrLen (v : JsValue) : Nat := (jsStr v).length

/-- JWT payload signed by the server: signAuthToken puts userId and
username in the payload (auth.js, createUser flow).  The Mongo ObjectId
is modelled as a Nat. -/
structure JwtPayload where
  userId : Nat
  username : String
deriving Repr, DecidableEq

/-- Signature string of a token: a stand-in for the HMAC over payload
and issue time, keyed by the secret.  Distinct secrets or payloads give
distinct signatures, which is all verification inspects. -/
def mkSig (secret : String) (p : JwtPayload) (iat : Nat) : String :=
  secret ++ "|" ++ toString p.userId ++ "|" ++ p.username ++ "|" ++ toString iat

/-- Session token as stored in the auth cookie: either a well-formed
signed token or an arbitrary malformed string. -/
inductive TokenV where
  | malformed (raw : String)
  | signed (payload : JwtPayload) (iat : Nat) (sig : String)
deriving Repr, DecidableEq

/-- Expiry window of one day, the expiresIn "1d" option in the source,
in seconds. -/
def tokenExpirySeconds : Nat := 86400

/-- jwt.sign with expiresIn "1d": token carrying the payload, the issue
time and a signature keyed by the secret. -/
def jwtSign (p : JwtPayload) (secret : String) (iat : Nat) : TokenV :=
  TokenV.signed p iat (mkSig secret p iat)

/-- jwt.verify: some payload when the token is well formed, the
signature matches the secret and the expiry has not elapsed; none
models the thrown JsonWebTokenError or TokenExpiredError. -/
def jwtVerify (t : TokenV) (secret : String) (now : Nat) : Option JwtPayload :=
  match t with
  | .malformed _ => none
  | .signed p iat sig =>
    if sig == mkSig secret p iat && decide (now < iat + tokenExpirySeconds)
    then some p else none

/-- Incoming request state the guards read: the auth cookie.  none
covers both an absent cookie and an empty string, which the source
treats alike through JS falsiness. -/
structure Req where
  auth : Option TokenV
deriving Repr, DecidableEq

/-- What a guard does with the request. -/
inductive GuardOutcome where
  | proceed (user : Option JwtPayload)
  | reject (status : Nat) (error : String)
  | redirect (target : String)
deriving Repr, DecidableEq

/-- Guard decision plus whether res.clearCookie("auth") ran. -/
structure GuardResult where
  outcome : GuardOutcome
  clearedCookie : Bool
deriving Repr, DecidableEq

/-- requireAuth middleware (server/auth.js): missing secret answers 500,
missing cookie answers 401, invalid token clears the cookie and answers
401, valid token attaches the decoded identity and proceeds.  secret is
none when JWT_SECRET is unset or empty (JS falsiness). -/
def requireAuth (secret : Option String) (now : Nat) (req : Req) : GuardResult :=
  match secret with
  | none => ⟨.reject 500 "Server misconfigured", false⟩
  | some s =>
    match req.auth with
    | none => ⟨.reject 401 "Unauthorized", false⟩
    | some t =>
      match jwtVerify t s now with
      | some p => ⟨.proceed (some p), false⟩
      | none => ⟨.reject 401 "Unauthorized", true⟩

/-- requireAuthPage middleware: missing cookie or missing secret
redirects to /login, invalid token clears the cookie and redirects to
/login, valid token attaches the identity and proceeds. -/
def requireAuthPage (secret : Option String) (now : Nat) (req : Req) : GuardResult :=
  match req.auth, secret with
  | none, _ => ⟨.redirect "/login", false⟩
  | some _, none => ⟨.redirect "/login", false⟩
  | some t, some s =>
    match jwtVerify t s now with
    | some p => ⟨.proceed (some p), false⟩
    | none => ⟨.redirect "/login", true⟩

/-- reverseAuthPage middleware: missing cookie or missing secret
proceeds, a valid token redirects home, an invalid token clears the
cookie and proceeds. -/
def reverseAuthPage (secret : Option String) (now : Nat) (req : Req) : GuardResult :=
  match req.auth, secret with
  | none, _ => ⟨.proceed none, false⟩
  | some _, none => ⟨.proceed none, false⟩
  | some t, some s =>
    match jwtVerify t s now with
    | some _ => ⟨.redirect "/", false⟩
    | none => ⟨.proceed none, true⟩

/-- reverseAuth middleware: missing cookie or missing secret proceeds,
a valid token is rejected with 400 "Already logged in", an invalid
token clears the cookie and proceeds. -/
def reverseAuth (secret : Option String) (now : Nat) (req : Req) : GuardResult :=
  match req.auth, secret with
  | none, _ => ⟨.proceed none, false⟩
  | some _, none => ⟨.proceed none, false⟩
  | some t, some s =>
    match jwtVerify t s now with
    | some _ => ⟨.reject 400 "Already logged in", false⟩
    | none => ⟨.proceed none, true⟩

/-- User document in the users collection, as built by createUser:
username, bcrypt password hash (stored under the field name password),
email, preferences and createdAt, plus the Mongo-assigned id. -/
structure UserRecord where
  id : Nat
  username : String
  password : String
  email : String
  preferences : JsValue
  createdAt : Nat
deriving Repr

/-- bcrypt.hash modelled as an injective tagging of the plaintext; the
salt is abstracted away, which keeps hashing deterministic while
preserving the contract compare(p, hash(q)) = (p = q). -/
def bcryptHash (password : String) : String := "bcrypt$" ++ password

/-- bcrypt.compare of a plaintext against a stored hash. -/
def bcryptCompare (password hash : String) : Bool := hash == bcryptHash password

/-- findOne({username: u}): first record of the collection whose
username field equals u. -/
def findOneByUsername (store : List UserRecord) (u : String) : Option UserRecord :=
  store.find? (fun r => r.username == u)

/-- findOne({_id: id}) / the target of updateOne({_id: id}): first
record with the given id. -/
def findById (store : List UserRecord) (id : Nat) : Option UserRecord :=
  store.find? (fun r => r.id == id)

/-- updateOne({_id: id}, {$set: ...}): rewrite the first record with
the given id, leave the rest untouched. -/
def updateById : List UserRecord → Nat → (UserRecord → UserRecord) → List UserRecord
  | [], _, _ => []
  | r :: rest, id, f =>
    if r.id == id then f r :: rest else r :: updateById rest id f

/-- insertOne under the unique indexes on username and email: a
duplicate on either field raises Mongo error code 11000, otherwise the
record is appended and its id returned. -/
def insertOne (store : List UserRecord) (u : UserRecord) :
    Except Nat (List UserRecord × Nat) :=
  if store.any (fun r => r.username == u.username || r.email == u.email)
  then .error 11000
  else .ok (store ++ [u], u.id)

/-- Login request body as loginUser destructures it. -/
structure LoginInput where
  username : JsValue
  password : JsValue
deriving Repr

/-- Result object of loginUser: passed false with a message, or passed
true with the signed cookie and the user preferences. -/
inductive LoginResult where
  | failure (message : String)
  | success (chocolateChipCookie : TokenV) (preferences : JsValue)
deriving Repr

/-- loginUser (server/getReqs/loginUser.js): type-check both fields,
look the username up trimmed, compare the password against the stored
bcrypt hash, and sign a token on match.  The Except error is the
exception signAuthToken throws when JWT_SECRET is missing. -/
def loginUser (store : List UserRecord) (secret : Option String) (now : Nat)
    (input : LoginInput) : Except String LoginResult :=
  match input.username, input.password with
  | .str u, .str p =>
    match findOneByUsername store (jsTrim u) with
    | none => .ok (.failure "Invalid username or password")
    | some user =>
      if bcryptCompare p user.password then
        match secret with
        | none => .error "Err creating auth token"
        | some s =>
          .ok (.success (jwtSign ⟨user.id, user.username⟩ s now) user.preferences)
      else .ok (.failure "Invalid username or password")
  | _, _ => .ok (.failure "Username and password must be strings")

/-- Character class of the email regex in createUser.js: anything that
is neither whitespace nor the at sign. -/
def emailChar (c : Char) : Bool := !c.isWhitespace && c != '@'

/-- Test whether a list of characters has a dot at an interior
position, i.e. splits as nonempty ++ dot ++ nonempty. -/
def hasInteriorDot (l : List Char) : Bool := ((l.drop 1).dropLast).contains '.'

/-- Test of the createUser.js email regex (caret, one or more
non-space-non-at, at sign, one or more non-space-non-at, a literal dot,
one or more non-space-non-at, dollar): a match is a nonempty run of
emailChar, the first at sign, then a nonempty all-emailChar tail with a
dot strictly inside it. -/
def emailRegexTest (s : String) : Bool :=
  let cs := s.data
  let locPart := cs.takeWhile (fun c => c != '@')
  match cs.dropWhile (fun c => c != '@') with
  | '@' :: domainTld =>
    !locPart.isEmpty && locPart.all emailChar &&
    !domainTld.isEmpty && domainTld.all emailChar &&
    hasInteriorDot domainTld
  | _ => false

/-- validate (createUser.js): username truthy, a string and at least 3
long; then password truthy, a string and at least 6 long; then email
truthy, a string and matching the regex; first failing rule returns its
message, otherwise null (here none). -/
def validate (username password email : JsValue) : Option String :=
  if !jsTruthy username || jsTypeof username != "string" || decide (jsStrLen username < 3) then
    some "Username must be at least 3 characters long."
  else if !jsTruthy password || jsTypeof password != "string" || decide (jsStrLen password < 6) then
    some "Password must be at least 6 characters long."
  else if !jsTruthy email || jsTypeof email != "string" || !emailRegexTest (jsStr email) then
    some "Invalid email address."
  else none

/-- Registration request body as createUser destructures it; the
preferences default of an empty object is applied by the caller-side
destructuring, so a body without the field carries obj []. -/
structure RegInput where
  username : JsValue
  password : JsValue
  email : JsValue
  preferences : JsValue
deriving Repr

/-- createUser (server/setReqs/createUser.js): validate and throw the
message on failure; hash the password; build the record with lowercased
username and email; insertOne, translating duplicate-key code 11000 to
the conflict message.  On a successful insert the source then runs
return result.insertedId, but result is declared with const inside the
try block, so that read is out of scope and JavaScript throws
ReferenceError: result is not defined; the insert itself has already
happened, which is why the new store is still returned alongside the
error.  newId stands for the ObjectId Mongo assigns, now for new
Date(). -/
def createUser (store : List UserRecord) (newId : Nat) (now : Nat)
    (input : RegInput) : List UserRecord × Except String Nat :=
  match validate input.username input.password input.email with
  | some err => (store, .error err)
  | none =>
    let user : UserRecord :=
      { id := newId
        username := jsToLower (jsStr input.username)
        password := bcryptHash (jsStr input.password)
        email := jsToLower (jsStr input.email)
        preferences := input.preferences
        createdAt := now }
    match insertOne store user with
    | .error code =>
      if code == 11000 then (store, .error "Username or email already exists.")
      else (store, .error ("Error creating user: code " ++ toString code))
    | .ok (store2, _insertedId) => (store2, .error "result is not defined")

/-- Response of the preference full-replace route: resulting store,
HTTP status and the message or error string of the JSON body. -/
structure PrefResult where
  store : List UserRecord
  status : Nat
  body : String
deriving Repr

/-- POST /api/preferences handler body (after requireAuth): reject with
400 when typeof preferences is not "object", with 401 when req.user has
no truthy id, otherwise $set the preferences field of the record with
the authenticated id and answer 200.  user is the identity requireAuth
attached; an id of 0 models a falsy id. -/
def postPreferences (store : List UserRecord) (user : Option JwtPayload)
    (preferences : JsValue) : PrefResult :=
  if jsTypeof preferences != "object" then
    ⟨store, 400, "Invalid preferences format"⟩
  else
    match user with
    | none => ⟨store, 401, "not logged in"⟩
    | some u =>
      if u.userId == 0 then ⟨store, 401, "not logged in"⟩
      else
        ⟨updateById store u.userId (fun r => { r with preferences := preferences }),
         200, "Preferences updated successfully"⟩

/-- Request body of POST /api/updateUsr as the handler destructures
it. -/
structure UpdateUsrInput where
  username : JsValue
  preferences : JsValue
deriving Repr

/-- Response of the updateUsr route: resulting store, HTTP status, the
message or error string, and the re-issued auth cookie when one was
set. -/
structure UpdateUsrResult where
  store : List UserRecord
  status : Nat
  body : String
  newCookie : Option TokenV
deriving Repr

/-- POST /api/updateUsr handler body (after requireAuth): 401 without a
truthy req.user.id; collect the update object, taking username when it
is a string with nonempty trim (stored trimmed, exactly as the source
writes username.trim()) and preferences when truthy and of typeof
"object"; 400 "No valid fields to update" when the update object stays
empty; otherwise $set the collected fields on the record with the
authenticated id and, when username was among them, re-issue the auth
cookie over the new username provided a secret is configured. -/
def updateUsr (store : List UserRecord) (secret : Option String) (now : Nat)
    (user : Option JwtPayload) (body : UpdateUsrInput) : UpdateUsrResult :=
  match user with
  | none => ⟨store, 401, "not logged in", none⟩
  | some u =>
    if u.userId == 0 then ⟨store, 401, "not logged in", none⟩
    else
      let unameField : Option String :=
        match body.username with
        | .str s => if jsTrim s != "" then some (jsTrim s) else none
        | _ => none
      let prefField : Option JsValue :=
        if jsTruthy body.preferences && jsTypeof body.preferences == "object"
        then some body.preferences else none
      match unameField, prefField with
      | none, none => ⟨store, 400, "No valid fields to update", none⟩
      | _, _ =>
        let store2 :=
          updateById store u.userId (fun r =>
            { r with
              username := unameField.getD r.username
              preferences := prefField.getD r.preferences })
        let cookie : Option TokenV :=
          match unameField, secret with
          | some newU, some s => some (jwtSign ⟨u.userId, newU⟩ s now)
          | _, _ => none
        ⟨store2, 200, "User updated successfully", cookie⟩

/-!
Claim-side definitions: these restate conditions the way the spec
phrases them, to be compared with the source-side definitions above.
-/

/-- Value that is a string of at least n characters — the spec's
phrasing of the username and password rules. -/
def lenOkStr (v : JsValue) (n : Nat) : Bool :=
  match v with
  | .str s => decide (n ≤ s.length)
  | _ => false

/-- Value that is a string matching the createUser.js email regex. -/
def emailOkStr (v : JsValue) : Bool :=
  match v with
  | .str s => emailRegexTest s
  | _ => false

/-- Modelled from the spec: the email pattern as the spec words it, a
decomposition local at-sign domain dot tld with every part nonempty and
whitespace-free (the spec constrains the parts only to be
non-whitespace, unlike the source regex whose character class also
excludes the at sign).  Positions i and j range over the string, i the
at sign and j a later dot with a nonempty gap on each side. -/
def specEmailPattern (s : String) : Bool :=
  let cs := s.data
  let n := cs.length
  cs.all (fun c => !c.isWhitespace) &&
  (List.range n).any (fun i =>
    (List.range n).any (fun j =>
      decide (1 ≤ i) && decide (i + 2 ≤ j) && decide (j + 2 ≤ n) &&
      ((cs.drop i).take 1 == ['@']) && ((cs.drop j).take 1 == ['.'])))

/-- Value that is a string with non-whitespace content — the phrasing
of claim C10 for the username field of updateUsr. -/
def strWithContent (v : JsValue) : Bool :=
  match v with
  | .str s => jsTrim s != ""
  | _ => false

/-- Truthy value of typeof "object" — the phrasing of claim C10 for the
preferences field of updateUsr. -/
def truthyObject (v : JsValue) : Bool :=
  jsTruthy v && jsTypeof v == "object"

/-- Value that is not a string of at least n characters — the spec's
phrasing of the username and password rejection rules. -/
def strTooShort (v : JsValue) (n : Nat) : Bool :=
  match v with
  | .str s => decide (s.length < n)
  | _ => true

/-- Value that is not a string matching the email regex — the spec's
phrasing of the email rejection rule. -/
def emailFails (v : JsValue) : Bool :=
  match v with
  | .str s => !emailRegexTest s
  | _ => true

/-!
Helper lemmas shared by the claim theorems.
-/

/-- The username and password rules of validate, written with JS
truthiness and typeof as in the source, test exactly the claim-side
condition strTooShort: the truthiness clause is redundant because the
empty string is shorter than any positive bound. -/
theorem fieldCheck (u : JsValue) (n : Nat) (hn : 0 < n) :
    (!jsTruthy u || jsTypeof u != "string" || decide (jsStrLen u < n)) =
      strTooShort u n := by
  cases u with
  | undefined => rfl
  | null => rfl
  | obj fields => rfl
  | bool b => cases b <;> rfl
  | num m => simp [jsTruthy, jsTypeof, strTooShort]
  | str s =>
    by_cases hs : s = ""
    · subst hs
      simp [jsTruthy, jsTypeof, jsStrLen, jsStr, strTooShort, hn]
    · simp [jsTruthy, jsTypeof, jsStrLen, jsStr, strTooShort, hs]

/-- The email rule of validate tests exactly the claim-side condition
emailFails; truthiness is again redundant since the empty string fails
the regex. -/
theorem emailCheck (e : JsValue) :
    (!jsTruthy e || jsTypeof e != "string" || !emailRegexTest (jsStr e)) =
      emailFails e := by
  cases e with
  | undefined => rfl
  | null => rfl
  | obj fields => rfl
  | bool b => cases b <;> rfl
  | num m => simp [jsTruthy, jsTypeof, emailFails]
  | str s =>
    by_cases hs : s = ""
    · subst hs
      simp [jsTruthy, jsTypeof, jsStr, emailFails]
      decide
    · simp [jsTruthy, jsTypeof, jsStr, emailFails, hs]

/-- Reading back the record targeted by an id-keyed update returns the
updated record, provided the update keeps the id. -/
theorem findById_updateById (store : List UserRecord) (uid : Nat)
    (f : UserRecord → UserRecord) (r : UserRecord)
    (hr : findById store uid = some r) (hf : (f r).id = r.id) :
    findById (updateById store uid f) uid = some (f r) := by
  induction store with
  | nil => simp [findById] at hr
  | cons a rest ih =>
    by_cases ha : a.id = uid
    · have hra : r = a := by
        simp [findById, List.find?_cons_of_pos, ha] at hr
        exact hr.symm
      subst hra
      simp [updateById, ha, findById, List.find?_cons_of_pos, hf]
    · have hr' : findById rest uid = some r := by
        simpa [findById, List.find?_cons_of_neg, ha] using hr
      have := ih hr'
      simpa [updateById, ha, findById, List.find?_cons_of_neg] using this

/-!
Claim theorems.
-/

/-- C1: the claim says createUser, on a valid registration input whose
insert hits no uniqueness violation, returns normally with the new
record's identity.  Evaluating the embedded createUser at such an input
shows the insert succeeds but the function then fails with the
ReferenceError raised by reading result outside the try block where it
was declared, so the caller gets an error, never the id.  This is the
code bug behind the claim. -/
theorem c1_createUser_raises_after_insert :
    createUser [] 1 0 ⟨.str "alice", .str "secret1", .str "a@b.c", .obj []⟩ =
      ([⟨1, "alice", bcryptHash "secret1", "a@b.c", .obj [], 0⟩],
       .error "result is not defined") := by rfl

/-- C2: the claim says login with the registration-time username string
succeeds for every username, mixed case included.  Registering with
username "Alice" stores "alice" (createUser lowercases), but loginUser
looks the name up only trimmed, so the same string "Alice" with the
correct password fails with the generic message, while the lowercased
"alice" succeeds — the two normalizations disagree on mixed-case
usernames, breaking the register-then-login composition the /api/user
route itself performs. -/
theorem c2_mixed_case_registration_breaks_login :
    (createUser [] 1 0 ⟨.str "Alice", .str "secret1", .str "a@b.c", .obj []⟩).1 =
      [⟨1, "alice", bcryptHash "secret1", "a@b.c", .obj [], 0⟩] ∧
    loginUser [⟨1, "alice", bcryptHash "secret1", "a@b.c", .obj [], 0⟩] (some "k") 0
        ⟨.str "Alice", .str "secret1"⟩ =
      .ok (.failure "Invalid username or password") ∧
    loginUser [⟨1, "alice", bcryptHash "secret1", "a@b.c", .obj [], 0⟩] (some "k") 0
        ⟨.str "alice", .str "secret1"⟩ =
      .ok (.success (jwtSign ⟨1, "alice"⟩ "k" 0) (.obj [])) :=
  ⟨rfl, rfl, rfl⟩

/-- C3 counterexample: the claim says every non-object preferences
value, null included, gets a 400 and no store mutation.  At null the
typeof check passes (typeof null is "object"), the handler answers 200
and the stored preferences field becomes null, no longer an object. -/
theorem c3_null_preferences_counterexample :
    postPreferences [⟨1, "alice", bcryptHash "secret1", "a@b.c", .obj [("team", .str "X")], 0⟩]
        (some ⟨1, "alice"⟩) .null =
      ⟨[⟨1, "alice", bcryptHash "secret1", "a@b.c", .null, 0⟩],
       200, "Preferences updated successfully"⟩ := by rfl

/-- C3 as amended: every preferences value whose JS typeof is not
"object" — undefined, booleans, numbers, strings, but not null — is
rejected with 400 and the store is left untouched. -/
theorem c3_amended_typeof_guard (store : List UserRecord)
    (user : Option JwtPayload) (p : JsValue) (h : jsTypeof p ≠ "object") :
    postPreferences store user p = ⟨store, 400, "Invalid preferences format"⟩ := by
  have hb : (jsTypeof p != "object") = true := by simp [bne_iff_ne, h]
  simp [postPreferences, hb]

/-- C3 witness: a numeric preferences body is rejected with 400 and no
mutation. -/
theorem c3_amended_witness :
    postPreferences [] none (.num 3) = ⟨[], 400, "Invalid preferences format"⟩ :=
  c3_amended_typeof_guard [] none (.num 3) (by decide)

/-- C4 counterexample: the claim says a non-string username or password
fails with the same generic message as wrong-password and unknown-user
failures.  A numeric username fails with the distinct message naming
the type check, which differs from the generic one. -/
theorem c4_type_failure_message_counterexample :
    loginUser [] (some "k") 0 ⟨.num 1, .str "secret1"⟩ =
      .ok (.failure "Username and password must be strings") ∧
    "Username and password must be strings" ≠ "Invalid username or password" :=
  ⟨rfl, by decide⟩

/-- C4 as amended: every login input with a non-string username or
password fails, but with the dedicated message "Username and password
must be strings", revealing that the type check failed, not with the
generic credentials message. -/
theorem c4_amended_non_string_message (store : List UserRecord)
    (secret : Option String) (now : Nat) (input : LoginInput)
    (h : jsTypeof input.username ≠ "string" ∨ jsTypeof input.password ≠ "string") :
    loginUser store secret now input =
      .ok (.failure "Username and password must be strings") := by
  obtain ⟨u, p⟩ := input
  cases u <;> cases p <;> simp_all [loginUser, jsTypeof]

/-- C4 witness: an undefined username yields the type-check message. -/
theorem c4_amended_witness :
    loginUser [] none 0 ⟨.undefined, .str "secret1"⟩ =
      .ok (.failure "Username and password must be strings") :=
  c4_amended_non_string_message [] none 0 ⟨.undefined, .str "secret1"⟩
    (Or.inl (by decide))

/-- C5 counterexample: the claim says both require-guards answer a
server-error when no secret is configured.  With no secret and a token
cookie present, requireAuthPage redirects to /login — a different
response from requireAuth's 500 rejection, and not a server error. -/
theorem c5_requireAuthPage_redirects_counterexample :
    requireAuthPage none 0 ⟨some (TokenV.malformed "x")⟩ = ⟨.redirect "/login", false⟩ ∧
    requireAuthPage none 0 ⟨some (TokenV.malformed "x")⟩ ≠
      ⟨.reject 500 "Server misconfigured", false⟩ :=
  ⟨rfl, by decide⟩

/-- C5 as amended: with no secret configured both require-guards fail
closed regardless of the cookie, but only requireAuth does so with the
500 configuration error; requireAuthPage redirects to /login. -/
theorem c5_amended_missing_secret (now : Nat) (req : Req) :
    requireAuth none now req = ⟨.reject 500 "Server misconfigured", false⟩ ∧
    requireAuthPage none now req = ⟨.redirect "/login", false⟩ := by
  refine ⟨rfl, ?_⟩
  obtain ⟨a⟩ := req
  cases a <;> rfl

/-- C6 counterexample: the claim says updateUsr lowercases a new
username before persisting it.  Renaming to "MixedCase" stores
"MixedCase" verbatim, which is not lowercase. -/
theorem c6_updateUsr_preserves_case_counterexample :
    (updateUsr [⟨1, "alice", bcryptHash "secret1", "a@b.c", .obj [], 0⟩] (some "k") 0
        (some ⟨1, "alice"⟩) ⟨.str "MixedCase", .undefined⟩).store =
      [⟨1, "MixedCase", bcryptHash "secret1", "a@b.c", .obj [], 0⟩] ∧
    "MixedCase" ≠ jsToLower "MixedCase" :=
  ⟨rfl, by decide⟩

/-- C6 as amended: registration is the only username write that
lowercases — createUser either leaves the store unchanged or appends a
record whose username and email are lowercased — while updateUsr
persists the caller-supplied username merely trimmed, as supplied, so
the lowercase invariant is not preserved by every mutation. -/
theorem c6_amended_username_writes :
    (∀ store newId now input st2 res,
        createUser store newId now input = (st2, res) →
        st2 = store ∨
        st2 = store ++ [{ id := newId
                          username := jsToLower (jsStr input.username)
                          password := bcryptHash (jsStr input.password)
                          email := jsToLower (jsStr input.email)
                          preferences := input.preferences
                          createdAt := now }]) ∧
    (∀ store secret now uid uname body s r, uid ≠ 0 →
        body.username = JsValue.str s → jsTrim s ≠ "" →
        findById store uid = some r →
        findById (updateUsr store secret now (some ⟨uid, uname⟩) body).store uid =
          some { r with
                 username := jsTrim s
                 preferences := if truthyObject body.preferences = true
                                then body.preferences else r.preferences }) := by
  constructor
  · intro store newId now input st2 res h
    unfold createUser at h
    cases hv : validate input.username input.password input.email with
    | some err =>
      rw [hv] at h
      injection h with h1 _
      exact Or.inl h1.symm
    | none =>
      rw [hv] at h
      dsimp only at h
      cases hins : insertOne store
          { id := newId
            username := jsToLower (jsStr input.username)
            password := bcryptHash (jsStr input.password)
            email := jsToLower (jsStr input.email)
            preferences := input.preferences
            createdAt := now } with
      | error code =>
        rw [hins] at h
        dsimp only at h
        split at h <;>
          · injection h with h1 _
            exact Or.inl h1.symm
      | ok p =>
        rw [hins] at h
        unfold insertOne at hins
        split at hins
        · exact absurd hins (by simp)
        · obtain ⟨pst, pid⟩ := p
          dsimp only at h
          injection h with h1 _
          injection hins with hins1
          injection hins1 with ha _
          rw [← h1]
          exact Or.inr ha.symm
  · intro store secret now uid uname body s r hid hu hs hr
    obtain ⟨bu, bp⟩ := body
    cases hu
    have hstep : (updateUsr store secret now (some ⟨uid, uname⟩) ⟨.str s, bp⟩).store =
        updateById store uid (fun r' =>
          { r' with
            username := jsTrim s
            preferences := (if jsTruthy bp && jsTypeof bp == "object"
                            then some bp else none).getD r'.preferences }) := by
      simp only [updateUsr]
      rw [if_neg (by simp [hid]), if_pos (by simp [bne_iff_ne, hs])]
      cases hbp : (if jsTruthy bp && jsTypeof bp == "object" then some bp else none) with
      | none => rfl
      | some v => rfl
    rw [hstep, findById_updateById store uid _ r hr rfl]
    by_cases hb : (jsTruthy bp && jsTypeof bp == "object") = true
    · simp [truthyObject, hb]
    · have hb' : (jsTruthy bp && jsTypeof bp == "object") = false := by
        simpa using hb
      simp [truthyObject, hb']

/-- C6 witness: renaming user 1 to " Bob " stores the trimmed "Bob"
without lowercasing, and leaves the other fields alone. -/
theorem c6_amended_witness :
    findById (updateUsr [⟨1, "alice", bcryptHash "secret1", "a@b.c", .obj [], 0⟩]
        (some "k") 0 (some ⟨1, "alice"⟩) ⟨.str " Bob ", .undefined⟩).store 1 =
      some ⟨1, "Bob", bcryptHash "secret1", "a@b.c", .obj [], 0⟩ :=
  c6_amended_username_writes.2 [⟨1, "alice", bcryptHash "secret1", "a@b.c", .obj [], 0⟩]
    (some "k") 0 1 "alice" ⟨.str " Bob ", .undefined⟩ " Bob "
    ⟨1, "alice", bcryptHash "secret1", "a@b.c", .obj [], 0⟩
    (by decide) rfl (by decide) rfl

/-- C7: on a request carrying a token cookie that fails verification,
each of the four guards clears the auth cookie before taking its own
branch — requireAuth rejects 401, requireAuthPage redirects to /login,
reverseAuthPage and reverseAuth proceed. -/
theorem c7_guards_clear_cookie_on_invalid_token (s : String) (now : Nat) (t : TokenV)
    (h : jwtVerify t s now = none) :
    requireAuth (some s) now ⟨some t⟩ = ⟨.reject 401 "Unauthorized", true⟩ ∧
    requireAuthPage (some s) now ⟨some t⟩ = ⟨.redirect "/login", true⟩ ∧
    reverseAuthPage (some s) now ⟨some t⟩ = ⟨.proceed none, true⟩ ∧
    reverseAuth (some s) now ⟨some t⟩ = ⟨.proceed none, true⟩ := by
  simp [requireAuth, requireAuthPage, reverseAuthPage, reverseAuth, h]

/-- C7 witness: a malformed token under secret "k" triggers the cookie
clear in all four guards. -/
theorem c7_witness :
    requireAuth (some "k") 0 ⟨some (TokenV.malformed "x")⟩ =
      ⟨.reject 401 "Unauthorized", true⟩ ∧
    requireAuthPage (some "k") 0 ⟨some (TokenV.malformed "x")⟩ =
      ⟨.redirect "/login", true⟩ ∧
    reverseAuthPage (some "k") 0 ⟨some (TokenV.malformed "x")⟩ =
      ⟨.proceed none, true⟩ ∧
    reverseAuth (some "k") 0 ⟨some (TokenV.malformed "x")⟩ =
      ⟨.proceed none, true⟩ :=
  c7_guards_clear_cookie_on_invalid_token "k" 0 (TokenV.malformed "x") rfl

/-- C8: a login attempt whose trimmed username matches no record and a
login attempt that finds a record but fails the bcrypt comparison
produce identical results — same failure status, same message. -/
theorem c8_login_failure_indistinguishable (store : List UserRecord)
    (secret : Option String) (now : Nat) (u1 p1 u2 p2 : String) (r : UserRecord)
    (h1 : findOneByUsername store (jsTrim u1) = none)
    (h2 : findOneByUsername store (jsTrim u2) = some r)
    (h3 : bcryptCompare p2 r.password = false) :
    loginUser store secret now ⟨.str u1, .str p1⟩ =
    loginUser store secret now ⟨.str u2, .str p2⟩ := by
  simp [loginUser, h1, h2, h3]

/-- C8 witness: against a store holding only user "bob", logging in as
the unknown "alice" and as "bob" with a wrong password are
indistinguishable. -/
theorem c8_witness :
    loginUser [⟨1, "bob", bcryptHash "pw1234", "b@c.d", .obj [], 0⟩] (some "k") 5
        ⟨.str "alice", .str "whatever"⟩ =
    loginUser [⟨1, "bob", bcryptHash "pw1234", "b@c.d", .obj [], 0⟩] (some "k") 5
        ⟨.str "bob", .str "wrongpw"⟩ :=
  c8_login_failure_indistinguishable _ (some "k") 5 "alice" "whatever" "bob" "wrongpw"
    ⟨1, "bob", bcryptHash "pw1234", "b@c.d", .obj [], 0⟩ rfl rfl rfl

/-- C9 counterexample: the claim describes the email rule as matching
non-whitespace-local at non-whitespace-domain dot non-whitespace-TLD,
and says validation passes whenever username, password and the pattern
are satisfied.  The address with a second at sign satisfies that
pattern as worded, yet validate rejects it, because the regex character
class excludes the at sign along with whitespace. -/
theorem c9_email_pattern_counterexample :
    specEmailPattern "a@b@c.d" = true ∧
    validate (.str "abc") (.str "secret1") (.str "a@b@c.d") =
      some "Invalid email address." :=
  ⟨by decide, by decide⟩

/-- C9 as amended: validation applies the three rules in order with the
first failing rule determining the message — non-string-or-short
username, then non-string-or-short password, then an email that is not
a string matching the regex whose parts exclude whitespace and the at
sign — and passes otherwise. -/
theorem c9_amended_validate_order (u p e : JsValue) :
    validate u p e =
      (if strTooShort u 3 then some "Username must be at least 3 characters long."
       else if strTooShort p 6 then some "Password must be at least 6 characters long."
       else if emailFails e then some "Invalid email address."
       else none) := by
  simp only [validate, fieldCheck u 3 (by decide), fieldCheck p 6 (by decide), emailCheck]

/-- C10: an authenticated updateUsr request supplying neither a
username that is a string with non-whitespace content nor a truthy
object preferences value answers 400 "No valid fields to update",
leaves the store unchanged and issues no token. -/
theorem c10_updateUsr_no_valid_fields (store : List UserRecord) (secret : Option String)
    (now : Nat) (uid : Nat) (uname : String) (body : UpdateUsrInput)
    (hid : uid ≠ 0)
    (hu : strWithContent body.username = false)
    (hp : truthyObject body.preferences = false) :
    updateUsr store secret now (some ⟨uid, uname⟩) body =
      ⟨store, 400, "No valid fields to update", none⟩ := by
  obtain ⟨bu, bp⟩ := body
  have hpf : truthyObject bp = false := hp
  simp only [truthyObject, Bool.and_eq_false_iff] at hpf
  cases bu <;>
    simp_all [updateUsr, strWithContent, hid] <;>
    rw [if_neg (fun hc => by
      rcases hpf with h | h
      · rw [hc.1] at h; exact Bool.false_ne_true h.symm
      · exact absurd hc.2 (by simpa using h))]

/-- C10 witness: an undefined username and a null preferences value
produce the 400 with no mutation and no token. -/
theorem c10_witness :
    updateUsr [] (some "k") 0 (some ⟨1, "alice"⟩) ⟨.undefined, .null⟩ =
      ⟨[], 400, "No valid fields to update", none⟩ :=
  c10_updateUsr_no_valid_fields [] (some "k") 0 1 "alice" ⟨.undefined, .null⟩
    (by decide) rfl rfl

end PlaybookNews
